import Mathlib

/-!
Verification development for the brand-monitoring pipeline
(`brand_monitoring_flow/main.py`, `tools/custom_tool.py`, `crews/llm_config.py`).

The Python code is shallowly embedded: JSON-like values become `PyVal`,
dictionaries become association lists (`RawRecord`), Python exceptions become
an explicit `PyError` threaded through `Except` or an `Option PyError`
component of each result, and the external network / LLM calls become
environment parameters (`ScrapeEnv`, `PlatEnv`, `EnvMap`) recording the
responses the remote services would give.  Every definition mirrors the
corresponding source function; theorems at the end settle the specification
claims.
-/

namespace BrandMonitoring

/-- PyVal models the JSON-like Python values stored in the dictionaries this
code manipulates: strings, numbers, booleans and lists. -/
inductive PyVal where
  | str : String → PyVal
  | num : Int → PyVal
  | bool : Bool → PyVal
  | vlist : List PyVal → PyVal

mutual

/-- beq is a hand-rolled boolean equality for `PyVal` (the nested `List`
prevents automatic derivation). -/
def PyVal.beq : PyVal → PyVal → Bool
  | .str a, .str b => a == b
  | .num a, .num b => a == b
  | .bool a, .bool b => a == b
  | .vlist a, .vlist b => PyVal.beqList a b
  | _, _ => false

/-- beqList is the companion boolean equality on lists of `PyVal`. -/
def PyVal.beqList : List PyVal → List PyVal → Bool
  | [], [] => true
  | a :: as2, b :: bs => PyVal.beq a b && PyVal.beqList as2 bs
  | _, _ => false

end

mutual

theorem PyVal.beq_iff : ∀ a b : PyVal, PyVal.beq a b = true ↔ a = b
  | .str a, .str b => by simp [PyVal.beq]
  | .str _, .num _ => by simp [PyVal.beq]
  | .str _, .bool _ => by simp [PyVal.beq]
  | .str _, .vlist _ => by simp [PyVal.beq]
  | .num _, .str _ => by simp [PyVal.beq]
  | .num a, .num b => by simp [PyVal.beq]
  | .num _, .bool _ => by simp [PyVal.beq]
  | .num _, .vlist _ => by simp [PyVal.beq]
  | .bool _, .str _ => by simp [PyVal.beq]
  | .bool _, .num _ => by simp [PyVal.beq]
  | .bool a, .bool b => by simp [PyVal.beq]
  | .bool _, .vlist _ => by simp [PyVal.beq]
  | .vlist _, .str _ => by simp [PyVal.beq]
  | .vlist _, .num _ => by simp [PyVal.beq]
  | .vlist _, .bool _ => by simp [PyVal.beq]
  | .vlist a, .vlist b => by
    have h := PyVal.beqList_iff a b
    simp [PyVal.beq, h]

theorem PyVal.beqList_iff : ∀ a b : List PyVal, PyVal.beqList a b = true ↔ a = b
  | [], [] => by simp [PyVal.beqList]
  | [], _ :: _ => by simp [PyVal.beqList]
  | _ :: _, [] => by simp [PyVal.beqList]
  | a :: as2, b :: bs => by
    have h1 := PyVal.beq_iff a b
    have h2 := PyVal.beqList_iff as2 bs
    simp [PyVal.beqList, h1, h2]

end

instance : DecidableEq PyVal := fun a b =>
  decidable_of_iff (PyVal.beq a b = true) (PyVal.beq_iff a b)

/-- PyError models the Python exceptions that the embedded code can raise. -/
inductive PyError where
  | keyError
  | attributeError
  | valueError
deriving DecidableEq

/-- RawRecord models a Python dict with string keys, as an association list. -/
abbrev RawRecord := List (String × PyVal)

/-- lookup models Python dict access returning the value of the first matching
key, or `none` when the key is absent. -/
def lookup : RawRecord → String → Option PyVal
  | [], _ => none
  | (k2, v) :: rest, k => if k2 = k then some v else lookup rest k

/-- dictGet models Python's `d.get(key, default)`. -/
def dictGet (r : RawRecord) (k : String) (d : PyVal) : PyVal :=
  (lookup r k).getD d

/-- lowerChar models `str.lower` on a single ASCII character. -/
def lowerChar (c : Char) : Char :=
  if 'A' ≤ c ∧ c ≤ 'Z' then Char.ofNat (c.toNat + 32) else c

/-- lowerStr models Python's `str.lower`. -/
def lowerStr (s : String) : String := ⟨s.data.map lowerChar⟩

/-- charsStartWith checks whether the first list of characters starts with the
second one. -/
def charsStartWith : List Char → List Char → Bool
  | _, [] => true
  | [], _ :: _ => false
  | c :: cs, d :: ds => c == d && charsStartWith cs ds

/-- charsContain checks whether the second list of characters occurs
contiguously inside the first one. -/
def charsContain : List Char → List Char → Bool
  | [], needle => needle.isEmpty
  | c :: cs, needle => charsStartWith (c :: cs) needle || charsContain cs needle

/-- strContains models the Python substring test `needle in hay`. -/
def strContains (hay needle : String) : Bool := charsContain hay.data needle.data

/-- pyLower models calling `.lower()` on a `PyVal`: it succeeds on strings and
raises `AttributeError` on every other value. -/
def pyLower : PyVal → Except PyError String
  | .str s => .ok (lowerStr s)
  | _ => .error .attributeError

/-- Platform enumerates the four social platforms handled by the flow. -/
inductive Platform where
  | linkedin
  | instagram
  | youtube
  | x
deriving DecidableEq, Repr

/-- CrewItem models one entry of a crew report (`post_title`, `post_link`,
`content_lines` in the source pydantic models). -/
structure CrewItem where
  post_title : String
  post_link : String
  content_lines : List String
deriving DecidableEq

/-- CrewReport models the pydantic report produced by a platform crew
(`LinkedInReport` and its siblings): a list of per-post summaries. -/
structure CrewReport where
  content : List CrewItem
deriving DecidableEq

/-- BrandMonitoringState mirrors the pydantic state model of the flow, with
the same field names.  `*_crew_response` fields are `Option` because the
Python default is `None`. -/
structure BrandMonitoringState where
  total_results : Nat
  brand_name : String
  llm_provider : String
  search_response : List RawRecord
  linkedin_search_response : List RawRecord
  instagram_search_response : List RawRecord
  youtube_search_response : List RawRecord
  x_search_response : List RawRecord
  linkedin_scrape_response : List RawRecord
  instagram_scrape_response : List RawRecord
  youtube_scrape_response : List RawRecord
  x_scrape_response : List RawRecord
  linkedin_filtered_scrape_response : List RawRecord
  instagram_filtered_scrape_response : List RawRecord
  youtube_filtered_scrape_response : List RawRecord
  x_filtered_scrape_response : List RawRecord
  linkedin_crew_response : Option CrewReport
  instagram_crew_response : Option CrewReport
  youtube_crew_response : Option CrewReport
  x_crew_response : Option CrewReport
deriving DecidableEq

/-- initialState mirrors the pydantic defaults of `BrandMonitoringState`. -/
def initialState : BrandMonitoringState where
  total_results := 5
  brand_name := "Browserbase"
  llm_provider := "ollama"
  search_response := []
  linkedin_search_response := []
  instagram_search_response := []
  youtube_search_response := []
  x_search_response := []
  linkedin_scrape_response := []
  instagram_scrape_response := []
  youtube_scrape_response := []
  x_scrape_response := []
  linkedin_filtered_scrape_response := []
  instagram_filtered_scrape_response := []
  youtube_filtered_scrape_response := []
  x_filtered_scrape_response := []
  linkedin_crew_response := none
  instagram_crew_response := none
  youtube_crew_response := none
  x_crew_response := none

/-- classifyItem mirrors one iteration of the bucketing loop in
`BrandMonitoringFlow.scrape_data` (main.py lines 107-132): the URL is the
`link` value with default `""`, lower-cased (which raises `AttributeError` on
a non-string value), then tested against the platform domain markers in
order; a matching item is appended to the first matching bucket only, and
only while that bucket holds fewer than 5 entries. -/
def classifyItem (s : BrandMonitoringState) (r : RawRecord) :
    BrandMonitoringState × Option PyError :=
  match pyLower (dictGet r "link" (.str "")) with
  | .error e => (s, some e)
  | .ok url =>
    if strContains url "linkedin.com" then
      (if s.linkedin_search_response.length < 5 then
        { s with linkedin_search_response := s.linkedin_search_response ++ [r] }
       else s, none)
    else if strContains url "instagram.com" then
      (if s.instagram_search_response.length < 5 then
        { s with instagram_search_response := s.instagram_search_response ++ [r] }
       else s, none)
    else if strContains url "youtube.com" || strContains url "youtu.be" then
      (if s.youtube_search_response.length < 5 then
        { s with youtube_search_response := s.youtube_search_response ++ [r] }
       else s, none)
    else if strContains url "x.com" || strContains url "twitter.com" then
      (if s.x_search_response.length < 5 then
        { s with x_search_response := s.x_search_response ++ [r] }
       else s, none)
    else (s, none)

/-- classifyLoop runs `classifyItem` over the whole search response, stopping
with the partial state if an iteration raises (a raised exception aborts the
Python `for` loop). -/
def classifyLoop : BrandMonitoringState → List RawRecord →
    BrandMonitoringState × Option PyError
  | s, [] => (s, none)
  | s, r :: rs =>
    match classifyItem s r with
    | (s1, none) => classifyLoop s1 rs
    | (s1, some e) => (s1, some e)

/-- destOf computes the platform bucket an item is routed to: the first
platform in the source's `if`/`elif` order whose domain marker occurs in the
lower-cased `link` value, or `none` when no marker matches. -/
def destOf (r : RawRecord) : Except PyError (Option Platform) :=
  match pyLower (dictGet r "link" (.str "")) with
  | .error e => .error e
  | .ok url =>
    .ok (if strContains url "linkedin.com" then some .linkedin
      else if strContains url "instagram.com" then some .instagram
      else if strContains url "youtube.com" || strContains url "youtu.be" then some .youtube
      else if strContains url "x.com" || strContains url "twitter.com" then some .x
      else none)

/-- bucket projects a platform's search bucket out of the state. -/
def bucket (p : Platform) (s : BrandMonitoringState) : List RawRecord :=
  match p with
  | .linkedin => s.linkedin_search_response
  | .instagram => s.instagram_search_response
  | .youtube => s.youtube_search_response
  | .x => s.x_search_response

/-- bucketAppend appends a record to the given platform's search bucket. -/
def bucketAppend (p : Platform) (s : BrandMonitoringState) (r : RawRecord) :
    BrandMonitoringState :=
  match p with
  | .linkedin => { s with linkedin_search_response := s.linkedin_search_response ++ [r] }
  | .instagram => { s with instagram_search_response := s.instagram_search_response ++ [r] }
  | .youtube => { s with youtube_search_response := s.youtube_search_response ++ [r] }
  | .x => { s with x_search_response := s.x_search_response ++ [r] }

/-- countBuckets counts, with multiplicity, how often a record occurs across
the four platform buckets of a state. -/
def countBuckets (s : BrandMonitoringState) (r0 : RawRecord) : Nat :=
  s.linkedin_search_response.count r0 + s.instagram_search_response.count r0 +
    s.youtube_search_response.count r0 + s.x_search_response.count r0

lemma classifyItem_char (s : BrandMonitoringState) (r : RawRecord) :
    classifyItem s r =
      match destOf r with
      | .error e => (s, some e)
      | .ok none => (s, none)
      | .ok (some p) =>
        (if (bucket p s).length < 5 then bucketAppend p s r else s, none) := by
  unfold classifyItem destOf
  cases pyLower (dictGet r "link" (.str "")) with
  | error e => rfl
  | ok url =>
    by_cases h1 : strContains url "linkedin.com" <;>
      by_cases h2 : strContains url "instagram.com" <;>
        by_cases h3 : strContains url "youtube.com" || strContains url "youtu.be" <;>
          by_cases h4 : strContains url "x.com" || strContains url "twitter.com" <;>
            simp [h1, h2, h3, h4, bucket, bucketAppend]

/-! ## Bright Data scraping client (`tools/custom_tool.py`, `scrape_urls`) -/

/-- ScrapeEnv packages the behaviour of the remote Bright Data service during
one `scrape_urls` call: the HTTP status and JSON body of the trigger request
(`none` models a non-JSON body), the JSON body of the k-th progress poll
(the poll at index 0 is the one issued right before the loop), the value of
`time.time() - start_time` observed at the k-th timeout check, and the JSON
body of the final snapshot fetch (`none` models a non-JSON body). -/
structure ScrapeEnv where
  triggerStatus : Nat
  triggerJson : Option RawRecord
  pollJson : Nat → Option RawRecord
  elapsed : Nat → Nat
  fetchJson : Option (List RawRecord)

/-- ScrapeOutcome records what a `scrape_urls` call produced: the returned
list (the function returns `[]` in every error case, mirroring its
catch-all `except`), the number of HTTP requests issued (trigger + polls +
snapshot fetch) and the number of `time.sleep(10)` calls performed. -/
structure ScrapeOutcome where
  result : List RawRecord
  requests : Nat
  sleeps : Nat
deriving DecidableEq

/-- statusReady tells whether the k-th progress poll reports status
`"ready"`. -/
def statusReady (env : ScrapeEnv) (k : Nat) : Bool :=
  match env.pollJson k with
  | none => false
  | some body =>
    match lookup body "status" with
    | none => false
    | some v => decide (v = PyVal.str "ready")

/-- pollLoop mirrors the `while status_response.json()['status'] != "ready"`
loop of `scrape_urls`.  At the k-th check, a non-JSON poll body or a body
without `status` raises inside the surrounding `try` and therefore yields
`[]`; status `"ready"` exits to the snapshot fetch; otherwise if the elapsed
time exceeds the 60 second timeout the function returns `[]`, and otherwise
it sleeps 10 seconds and polls again.  The Python loop is unbounded but each
iteration sleeps 10 seconds, so the k-th check happens at least `10 * k`
seconds after `start_time` and the loop runs at most 8 checks; `fuel` makes
the recursion structural, and the fuel-exhausted branch returns a marker
record that is provably never produced when `elapsed` grows at least that
fast. -/
def pollLoop (env : ScrapeEnv) : Nat → Nat → ScrapeOutcome
  | 0, k => ⟨[[("fuel_exhausted", PyVal.bool true)]], k + 2, k⟩
  | fuel + 1, k =>
    match env.pollJson k with
    | none => ⟨[], k + 2, k⟩
    | some body =>
      match lookup body "status" with
      | none => ⟨[], k + 2, k⟩
      | some v =>
        if v = PyVal.str "ready" then
          match env.fetchJson with
          | none => ⟨[], k + 3, k⟩
          | some l => ⟨l, k + 3, k⟩
        else if env.elapsed k > 60 then ⟨[], k + 2, k⟩
        else pollLoop env fuel (k + 1)

/-- scrape_urls mirrors `scrape_urls` of `tools/custom_tool.py`: an empty URL
list short-circuits to `[]` with no request; then the trigger POST is
issued, and a non-200 status, a non-JSON body, or a body without
`snapshot_id` each yield `[]`; otherwise the progress endpoint is polled
(`pollLoop`) and on `"ready"` the snapshot is fetched, a non-JSON snapshot
body yielding `[]`.  All raised exceptions are caught by the function's
outer `try`/`except`, which also returns `[]`. -/
def scrape_urls (env : ScrapeEnv) (input_urls : List String) : ScrapeOutcome :=
  if input_urls = [] then ⟨[], 0, 0⟩
  else if env.triggerStatus ≠ 200 then ⟨[], 1, 0⟩
  else
    match env.triggerJson with
    | none => ⟨[], 1, 0⟩
    | some j =>
      match lookup j "snapshot_id" with
      | none => ⟨[], 1, 0⟩
      | some _ => pollLoop env 8 0

/-! ## LLM configuration (`crews/llm_config.py`, `get_llm`) -/

/-- EnvMap models `os.environ` as an association list; `setenv` conses, and
lookups take the first binding. -/
abbrev EnvMap := List (String × String)

/-- envLookup models `os.getenv(key)` returning `None` when unset. -/
def envLookup : EnvMap → String → Option String
  | [], _ => none
  | (k2, v) :: rest, k => if k2 = k then some v else envLookup rest k

/-- pyOr models Python's `a or b` for an optional string `a`: `None` and the
empty string are falsy and fall through to `b`. -/
def pyOr (a : Option String) (b : String) : String :=
  match a with
  | none => b
  | some s => if s = "" then b else s

/-- LLM models the configured `crewai.LLM` handle; only the resolved model
name matters to this development. -/
structure LLM where
  model : String
deriving DecidableEq

/-- get_llm mirrors `get_llm` of `crews/llm_config.py`: the provider argument
(falsy values falling back to `os.getenv("LLM_PROVIDER", "ollama")`) selects
Groq or Ollama; for Groq a missing or empty `GROQ_API_KEY` raises
`ValueError`, otherwise the model name is resolved from the argument, the
provider-specific environment variable, or the documented default. -/
def get_llm (envm : EnvMap) (provider : Option String) (model : Option String) :
    Except PyError LLM :=
  let prov := pyOr provider (pyOr (envLookup envm "LLM_PROVIDER") "ollama")
  if lowerStr prov = "groq" then
    match envLookup envm "GROQ_API_KEY" with
    | none => .error .valueError
    | some key =>
      if key = "" then .error .valueError
      else .ok ⟨"groq/" ++ pyOr model (pyOr (envLookup envm "GROQ_MODEL") "llama3-70b-8192")⟩
  else .ok ⟨"ollama/" ++ pyOr model (pyOr (envLookup envm "OLLAMA_MODEL") "deepseek-r1")⟩

/-! ## Per-platform pipelines (`main.py`, `scrape_data_and_analyse`) -/

/-- CallResult models the outcome of one external call made inside a
platform pipeline: the call either raises a Python exception or returns a
value. -/
inductive CallResult (α : Type) where
  | raises : PyError → CallResult α
  | returns : α → CallResult α

/-- PlatEnv packages the external behaviour seen by one platform's pipeline:
the outcome of its `scrape_urls` call and the outcome of its crew `kickoff`
call (whose result is truthy, modelled `some`, or falsy, modelled `none`,
when it does not raise). -/
structure PlatEnv where
  scrape : CallResult (List RawRecord)
  crew : CallResult (Option CrewReport)

/-- getLinks mirrors the list comprehension `[r['link'] for r in bucket]`:
it raises `KeyError` at the first record without a `link` key. -/
def getLinks : List RawRecord → Except PyError (List PyVal)
  | [] => .ok []
  | r :: rs =>
    match lookup r "link" with
    | none => .error .keyError
    | some v =>
      match getLinks rs with
      | .error e => .error e
      | .ok vs => .ok (v :: vs)

/-- linkedinFilter mirrors the record built in the LinkedIn filtering loop of
`linkedin_analysis` (main.py lines 174-183): `url` is accessed with raising
indexing, every other field with `.get` and its documented default. -/
def linkedinFilter (i : RawRecord) : Except PyError RawRecord :=
  match lookup i "url" with
  | none => .error .keyError
  | some u =>
    .ok [("url", u),
      ("headline", dictGet i "headline" (.str "No headline")),
      ("post_text", dictGet i "post_text" (.str "No post text available")),
      ("hashtags", dictGet i "hashtags" (.vlist [])),
      ("tagged_companies", dictGet i "tagged_companies" (.vlist [])),
      ("tagged_people", dictGet i "tagged_people" (.vlist [])),
      ("original_poster", dictGet i "user_id" (.str "Unknown user"))]

/-- instagramFilter mirrors the record built in the Instagram filtering loop
of `instagram_analysis` (main.py lines 226-235). -/
def instagramFilter (i : RawRecord) : Except PyError RawRecord :=
  match lookup i "url" with
  | none => .error .keyError
  | some u =>
    .ok [("url", u),
      ("description", dictGet i "description" (.str "No description available")),
      ("likes", dictGet i "likes" (.str "0")),
      ("num_comments", dictGet i "num_comments" (.str "0")),
      ("is_paid_partnership", dictGet i "is_paid_partnership" (.bool false)),
      ("followers", dictGet i "followers" (.str "0")),
      ("original_poster", dictGet i "user_posted" (.str "Unknown user"))]

/-- youtubeFilter mirrors the record built in the YouTube filtering loop of
`youtube_analysis` (main.py lines 275-286). -/
def youtubeFilter (i : RawRecord) : Except PyError RawRecord :=
  match lookup i "url" with
  | none => .error .keyError
  | some u =>
    .ok [("url", u),
      ("title", dictGet i "title" (.str "No Title")),
      ("description", dictGet i "description" (.str "No description available")),
      ("original_poster", dictGet i "youtuber" (.str "Unknown creator")),
      ("verified", dictGet i "verified" (.bool false)),
      ("views", dictGet i "views" (.str "0")),
      ("likes", dictGet i "likes" (.str "0")),
      ("hashtags", dictGet i "hashtags" (.vlist [])),
      ("transcript", dictGet i "transcript" (.str "No transcript available"))]

/-- xFilter mirrors the record built in the X/Twitter filtering loop of
`x_analysis` (main.py lines 329-342). -/
def xFilter (i : RawRecord) : Except PyError RawRecord :=
  match lookup i "url" with
  | none => .error .keyError
  | some u =>
    .ok [("url", u),
      ("views", dictGet i "views" (.str "0")),
      ("likes", dictGet i "likes" (.str "0")),
      ("replies", dictGet i "replies" (.str "0")),
      ("reposts", dictGet i "reposts" (.str "0")),
      ("hashtags", dictGet i "hashtags" (.vlist [])),
      ("quotes", dictGet i "quotes" (.str "0")),
      ("bookmarks", dictGet i "bookmarks" (.str "0")),
      ("description", dictGet i "description" (.str "No description available")),
      ("tagged_users", dictGet i "tagged_users" (.vlist [])),
      ("original_poster", dictGet i "user_posted" (.str "Unknown user"))]

/-- filterLoop mirrors the per-platform `for i in scrape_response: append`
loop: records are filtered in order, and the first raising record aborts the
loop keeping the records appended so far. -/
def filterLoop (f : RawRecord → Except PyError RawRecord) :
    List RawRecord → List RawRecord × Option PyError
  | [] => ([], none)
  | i :: rest =>
    match f i with
    | .error e => ([], some e)
    | .ok r =>
      match filterLoop f rest with
      | (rs, e) => (r :: rs, e)

/-- crewStage models `PlatformCrew().crew().kickoff(...)`: building the crew
calls `get_llm(provider=os.getenv("LLM_PROVIDER"), model=os.getenv("LLM_MODEL"))`
inside the agent factories, so a configuration error raises here; otherwise
the kickoff outcome is whatever the external LLM run produced. -/
def crewStage (envm : EnvMap) (call : CallResult (Option CrewReport)) :
    CallResult (Option CrewReport) :=
  match get_llm envm (envLookup envm "LLM_PROVIDER") (envLookup envm "LLM_MODEL") with
  | .error e => .raises e
  | .ok _ => call

/-- Slice groups the four state fields a single platform's pipeline reads and
writes: its search bucket, raw scrape response, filtered records, and crew
report. -/
structure Slice where
  search : List RawRecord
  scrape : List RawRecord
  filtered : List RawRecord
  crew : Option CrewReport
deriving DecidableEq

/-- TaskMeta records the observable behaviour of one platform task: the
exception that escaped the task body (captured by `asyncio.gather` with
`return_exceptions=True`), and how many scrape and crew calls it made. -/
structure TaskMeta where
  exc : Option PyError
  scrapeCalls : Nat
  crewCalls : Nat
deriving DecidableEq

/-- sliceTask is the body shared by the four `*_analysis` closures of
`scrape_data_and_analyse`, acting on that platform's slice of the state:
exit early when the search bucket is empty; compute the URL list (raising
`KeyError` on a record without `link` — this is outside any `try` and
escapes the task); call `scrape_urls` inside `try`, returning on a raised
exception or an empty result; run the filtering loop (a raising record
escapes the task, keeping the partial appends); exit if the filtered list is
empty; finally run the crew inside `try`, assigning its result on success
and returning on a raised exception. -/
def sliceTask (f : RawRecord → Except PyError RawRecord) (envm : EnvMap)
    (e : PlatEnv) (sl : Slice) : Slice × TaskMeta :=
  if sl.search = [] then (sl, ⟨none, 0, 0⟩)
  else
    match getLinks sl.search with
    | .error err => (sl, ⟨some err, 0, 0⟩)
    | .ok _ =>
      match e.scrape with
      | .raises _ => (sl, ⟨none, 1, 0⟩)
      | .returns l =>
        let sl1 : Slice := { sl with scrape := l }
        if l = [] then (sl1, ⟨none, 1, 0⟩)
        else
          match filterLoop f l with
          | (fl, some err) =>
            ({ sl1 with filtered := sl1.filtered ++ fl }, ⟨some err, 1, 0⟩)
          | (fl, none) =>
            let sl2 : Slice := { sl1 with filtered := sl1.filtered ++ fl }
            if sl2.filtered = [] then (sl2, ⟨none, 1, 0⟩)
            else
              match crewStage envm e.crew with
              | .raises _ => (sl2, ⟨none, 1, 1⟩)
              | .returns r => ({ sl2 with crew := r }, ⟨none, 1, 1⟩)

/-- TaskOut is a platform task's result: the updated whole state plus the
task's metadata. -/
structure TaskOut where
  st : BrandMonitoringState
  meta : TaskMeta

/-- liSlice projects the LinkedIn slice out of the state. -/
def liSlice (s : BrandMonitoringState) : Slice :=
  ⟨s.linkedin_search_response, s.linkedin_scrape_response,
    s.linkedin_filtered_scrape_response, s.linkedin_crew_response⟩

/-- igSlice projects the Instagram slice out of the state. -/
def igSlice (s : BrandMonitoringState) : Slice :=
  ⟨s.instagram_search_response, s.instagram_scrape_response,
    s.instagram_filtered_scrape_response, s.instagram_crew_response⟩

/-- ytSlice projects the YouTube slice out of the state. -/
def ytSlice (s : BrandMonitoringState) : Slice :=
  ⟨s.youtube_search_response, s.youtube_scrape_response,
    s.youtube_filtered_scrape_response, s.youtube_crew_response⟩

/-- xSlice projects the X/Twitter slice out of the state. -/
def xSlice (s : BrandMonitoringState) : Slice :=
  ⟨s.x_search_response, s.x_scrape_response,
    s.x_filtered_scrape_response, s.x_crew_response⟩

/-- linkedin_analysis mirrors the `linkedin_analysis` closure (main.py lines
154-201): it runs the shared pipeline body on the LinkedIn slice and writes
back only the LinkedIn fields of the state. -/
def linkedin_analysis (envm : EnvMap) (e : PlatEnv) (s : BrandMonitoringState) : TaskOut :=
  let p := sliceTask linkedinFilter envm e (liSlice s)
  ⟨{ s with
      linkedin_search_response := p.1.search
      linkedin_scrape_response := p.1.scrape
      linkedin_filtered_scrape_response := p.1.filtered
      linkedin_crew_response := p.1.crew }, p.2⟩

/-- instagram_analysis mirrors the `instagram_analysis` closure (main.py
lines 203-253). -/
def instagram_analysis (envm : EnvMap) (e : PlatEnv) (s : BrandMonitoringState) : TaskOut :=
  let p := sliceTask instagramFilter envm e (igSlice s)
  ⟨{ s with
      instagram_search_response := p.1.search
      instagram_scrape_response := p.1.scrape
      instagram_filtered_scrape_response := p.1.filtered
      instagram_crew_response := p.1.crew }, p.2⟩

/-- youtube_analysis mirrors the `youtube_analysis` closure (main.py lines
255-304). -/
def youtube_analysis (envm : EnvMap) (e : PlatEnv) (s : BrandMonitoringState) : TaskOut :=
  let p := sliceTask youtubeFilter envm e (ytSlice s)
  ⟨{ s with
      youtube_search_response := p.1.search
      youtube_scrape_response := p.1.scrape
      youtube_filtered_scrape_response := p.1.filtered
      youtube_crew_response := p.1.crew }, p.2⟩

/-- x_analysis mirrors the `x_analysis` closure (main.py lines 306-360). -/
def x_analysis (envm : EnvMap) (e : PlatEnv) (s : BrandMonitoringState) : TaskOut :=
  let p := sliceTask xFilter envm e (xSlice s)
  ⟨{ s with
      x_search_response := p.1.search
      x_scrape_response := p.1.scrape
      x_filtered_scrape_response := p.1.filtered
      x_crew_response := p.1.crew }, p.2⟩

/-- FlowEnv packages the external behaviour of all four platform
pipelines. -/
structure FlowEnv where
  linkedin : PlatEnv
  instagram : PlatEnv
  youtube : PlatEnv
  x : PlatEnv

/-- AnalyseOut is the observable result of `scrape_data_and_analyse`: the
final state and the four task metadata records whose captured exceptions
`asyncio.gather(..., return_exceptions=True)` swallowed. -/
structure AnalyseOut where
  st : BrandMonitoringState
  li : TaskMeta
  ig : TaskMeta
  yt : TaskMeta
  x : TaskMeta

/-- scrape_data_and_analyse mirrors `BrandMonitoringFlow.scrape_data_and_analyse`
(main.py lines 140-408): the four platform tasks are created together and
joined with `asyncio.gather(..., return_exceptions=True)`.  The task bodies
contain no `await`, so on the single-threaded event loop they run to
completion in creation order; each task touches only its own platform's
slice of the state, and any exception escaping a task body is captured by
`gather` and discarded. -/
def scrape_data_and_analyse (envm : EnvMap) (env : FlowEnv)
    (s : BrandMonitoringState) : AnalyseOut :=
  let o1 := linkedin_analysis envm env.linkedin s
  let o2 := instagram_analysis envm env.instagram o1.st
  let o3 := youtube_analysis envm env.youtube o2.st
  let o4 := x_analysis envm env.x o3.st
  ⟨o4.st, o1.meta, o2.meta, o3.meta, o4.meta⟩

/-- scrape_data mirrors `BrandMonitoringFlow.scrape_data` (main.py lines
81-138): it exports the LLM provider and model choice into the process
environment, stores the search tool's output (an input to this model) into
the state, returns early when the search produced nothing, and otherwise
runs the classification loop. -/
def scrape_data (searchResults : List RawRecord) (envm : EnvMap)
    (s : BrandMonitoringState) : BrandMonitoringState × EnvMap × Option PyError :=
  let envm1 : EnvMap := ("LLM_PROVIDER", s.llm_provider) :: envm
  let envm2 : EnvMap :=
    if s.llm_provider = "groq" then ("GROQ_MODEL", "llama3-70b-8192") :: envm1
    else ("OLLAMA_MODEL", "deepseek-r1") :: envm1
  let s1 := { s with search_response := searchResults }
  if searchResults = [] then (s1, envm2, none)
  else
    match classifyLoop s1 searchResults with
    | (s2, err) => (s2, envm2, err)

/-! ## Helper lemmas -/

lemma bucket_append_self (p : Platform) (s : BrandMonitoringState) (r : RawRecord) :
    bucket p (bucketAppend p s r) = bucket p s ++ [r] := by
  cases p <;> rfl

lemma bucket_append_other (p q : Platform) (s : BrandMonitoringState) (r : RawRecord)
    (h : p ≠ q) : bucket q (bucketAppend p s r) = bucket q s := by
  cases p <;> cases q <;> simp_all [bucket, bucketAppend]

lemma classifyItem_len (s : BrandMonitoringState) (r : RawRecord) (p : Platform)
    (h : (bucket p s).length ≤ 5) :
    (bucket p (classifyItem s r).1).length ≤ 5 := by
  rw [classifyItem_char]
  cases hd : destOf r with
  | error e => simpa using h
  | ok o =>
    cases o with
    | none => simpa using h
    | some q =>
      by_cases hlt : (bucket q s).length < 5
      · by_cases hpq : q = p
        · subst hpq
          simp only [hlt, if_true]
          rw [bucket_append_self]
          simp only [List.length_append, List.length_singleton]
          omega
        · simp only [hlt, if_true]
          rw [bucket_append_other q p s r hpq]
          exact h
      · simpa [hlt] using h

lemma classifyLoop_len : ∀ (rs : List RawRecord) (s : BrandMonitoringState),
    (∀ p, (bucket p s).length ≤ 5) →
    ∀ p, (bucket p (classifyLoop s rs).1).length ≤ 5 := by
  intro rs
  induction rs with
  | nil => intro s h p; exact h p
  | cons r rs ih =>
    intro s h p
    show (bucket p (classifyLoop s (r :: rs)).1).length ≤ 5
    unfold classifyLoop
    cases hc : classifyItem s r with
    | mk s1 oe =>
      have h1 : ∀ q, (bucket q s1).length ≤ 5 := by
        intro q
        have := classifyItem_len s r q (h q)
        rwa [hc] at this
      cases oe with
      | none => exact ih s1 h1 p
      | some e2 => exact h1 p

lemma count_bucketAppend (p : Platform) (s : BrandMonitoringState)
    (r r0 : RawRecord) :
    countBuckets (bucketAppend p s r) r0 = countBuckets s r0 + [r].count r0 := by
  cases p <;> simp [countBuckets, bucketAppend, List.count_append] <;> omega

lemma classifyItem_count (s : BrandMonitoringState) (r r0 : RawRecord) :
    countBuckets (classifyItem s r).1 r0 ≤ countBuckets s r0 + [r].count r0 := by
  rw [classifyItem_char]
  cases hd : destOf r with
  | error e => simp
  | ok o =>
    cases o with
    | none => simp
    | some q =>
      by_cases hlt : (bucket q s).length < 5
      · simp only [hlt, if_true]
        rw [count_bucketAppend]
      · simp [hlt]

lemma classifyLoop_count : ∀ (rs : List RawRecord) (s : BrandMonitoringState)
    (r0 : RawRecord),
    countBuckets (classifyLoop s rs).1 r0 ≤ countBuckets s r0 + rs.count r0 := by
  intro rs
  induction rs with
  | nil => intro s r0; simp [classifyLoop]
  | cons r rs ih =>
    intro s r0
    unfold classifyLoop
    have hcount : (r :: rs).count r0 = rs.count r0 + [r].count r0 := by
      simp [List.count_cons]
    cases hc : classifyItem s r with
    | mk s1 oe =>
      have h1 : countBuckets s1 r0 ≤ countBuckets s r0 + [r].count r0 := by
        have := classifyItem_count s r r0
        rwa [hc] at this
      cases oe with
      | none =>
        calc countBuckets (classifyLoop s1 rs).1 r0
            ≤ countBuckets s1 r0 + rs.count r0 := ih s1 r0
          _ ≤ countBuckets s r0 + [r].count r0 + rs.count r0 := by omega
          _ = countBuckets s r0 + (r :: rs).count r0 := by rw [hcount]; omega
      | some e2 =>
        have : [r].count r0 ≤ (r :: rs).count r0 := by rw [hcount]; omega
        simpa using Nat.le_trans h1 (by omega)

lemma classifyItem_full (t : BrandMonitoringState) (r : RawRecord) (p : Platform)
    (hd : destOf r = .ok (some p)) (hfull : 5 ≤ (bucket p t).length) :
    classifyItem t r = (t, none) := by
  rw [classifyItem_char, hd]
  simp [Nat.not_lt.mpr hfull]

lemma sliceTask_search_eq (f : RawRecord → Except PyError RawRecord)
    (envm : EnvMap) (e : PlatEnv) (sl : Slice) :
    (sliceTask f envm e sl).1.search = sl.search := by
  simp only [sliceTask]
  repeat' split
  all_goals rfl

lemma sliceTask_empty (f : RawRecord → Except PyError RawRecord)
    (envm : EnvMap) (e : PlatEnv) (sl : Slice) (h : sl.search = []) :
    sliceTask f envm e sl = (sl, ⟨none, 0, 0⟩) := by
  simp [sliceTask, h]

lemma sliceTask_crew_filtered_aux (f : RawRecord → Except PyError RawRecord)
    (envm : EnvMap) (e : PlatEnv) (sl sl2 : Slice) (m : TaskMeta)
    (hq : sliceTask f envm e sl = (sl2, m)) (h : sl.crew = none)
    (h2 : sl2.crew.isSome) : sl2.filtered ≠ [] := by
  revert hq
  simp only [sliceTask]
  repeat' split
  all_goals intro hq
  all_goals injection hq with e1 e2
  all_goals subst e1
  all_goals simp_all

lemma sliceTask_crew_filtered (f : RawRecord → Except PyError RawRecord)
    (envm : EnvMap) (e : PlatEnv) (sl : Slice) (h : sl.crew = none)
    (h2 : (sliceTask f envm e sl).1.crew.isSome) :
    (sliceTask f envm e sl).1.filtered ≠ [] :=
  sliceTask_crew_filtered_aux f envm e sl _ _ rfl h h2

lemma sliceTask_crew_unset_aux (f : RawRecord → Except PyError RawRecord)
    (envm : EnvMap) (e : PlatEnv) (sl sl2 : Slice) (m : TaskMeta)
    (hq : sliceTask f envm e sl = (sl2, m)) (err : PyError)
    (h : crewStage envm e.crew = .raises err) : sl2.crew = sl.crew := by
  revert hq
  simp only [sliceTask]
  repeat' split
  all_goals intro hq
  all_goals injection hq with e1 e2
  all_goals subst e1
  all_goals simp_all

lemma sliceTask_crew_unset (f : RawRecord → Except PyError RawRecord)
    (envm : EnvMap) (e : PlatEnv) (sl : Slice) (err : PyError)
    (h : crewStage envm e.crew = .raises err) :
    (sliceTask f envm e sl).1.crew = sl.crew :=
  sliceTask_crew_unset_aux f envm e sl _ _ rfl err h

lemma run_li_slice (envm : EnvMap) (env : FlowEnv) (s : BrandMonitoringState) :
    liSlice (scrape_data_and_analyse envm env s).st =
      (sliceTask linkedinFilter envm env.linkedin (liSlice s)).1 := rfl

lemma run_ig_slice (envm : EnvMap) (env : FlowEnv) (s : BrandMonitoringState) :
    igSlice (scrape_data_and_analyse envm env s).st =
      (sliceTask instagramFilter envm env.instagram (igSlice s)).1 := rfl

lemma run_yt_slice (envm : EnvMap) (env : FlowEnv) (s : BrandMonitoringState) :
    ytSlice (scrape_data_and_analyse envm env s).st =
      (sliceTask youtubeFilter envm env.youtube (ytSlice s)).1 := rfl

lemma run_x_slice (envm : EnvMap) (env : FlowEnv) (s : BrandMonitoringState) :
    xSlice (scrape_data_and_analyse envm env s).st =
      (sliceTask xFilter envm env.x (xSlice s)).1 := rfl

lemma run_li_meta (envm : EnvMap) (env : FlowEnv) (s : BrandMonitoringState) :
    (scrape_data_and_analyse envm env s).li =
      (sliceTask linkedinFilter envm env.linkedin (liSlice s)).2 := rfl

lemma run_ig_meta (envm : EnvMap) (env : FlowEnv) (s : BrandMonitoringState) :
    (scrape_data_and_analyse envm env s).ig =
      (sliceTask instagramFilter envm env.instagram (igSlice s)).2 := rfl

lemma run_yt_meta (envm : EnvMap) (env : FlowEnv) (s : BrandMonitoringState) :
    (scrape_data_and_analyse envm env s).yt =
      (sliceTask youtubeFilter envm env.youtube (ytSlice s)).2 := rfl

lemma run_x_meta (envm : EnvMap) (env : FlowEnv) (s : BrandMonitoringState) :
    (scrape_data_and_analyse envm env s).x =
      (sliceTask xFilter envm env.x (xSlice s)).2 := rfl

lemma pollLoop_no_ready (env : ScrapeEnv) (h10 : ∀ k, 10 * k ≤ env.elapsed k)
    (hnr : ∀ k, statusReady env k = false) :
    ∀ fuel k, 1 ≤ fuel → k + fuel = 8 →
    ∃ j, j ≤ 7 ∧ pollLoop env fuel k = ⟨[], j + 2, j⟩ := by
  intro fuel
  induction fuel with
  | zero => intro k h1 _; omega
  | succ f ih =>
    intro k _ hk
    have hk7 : k ≤ 7 := by omega
    cases hpj : env.pollJson k with
    | none => exact ⟨k, hk7, by simp [pollLoop, hpj]⟩
    | some body =>
      cases hlk : lookup body "status" with
      | none => exact ⟨k, hk7, by simp [pollLoop, hpj, hlk]⟩
      | some v =>
        have hv : ¬ (v = PyVal.str "ready") := by
          have hh := hnr k
          simp [statusReady, hpj, hlk] at hh
          exact hh
        by_cases he : env.elapsed k > 60
        · exact ⟨k, hk7, by simp [pollLoop, hpj, hlk, hv, he]⟩
        · have hk6 : k ≤ 6 := by have := h10 k; omega
          obtain ⟨j, hj, hrec⟩ := ih (k + 1) (by omega) (by omega)
          exact ⟨j, hj, by simp [pollLoop, hpj, hlk, hv, he, hrec]⟩

lemma pollLoop_fetch_none (env : ScrapeEnv) (h10 : ∀ k, 10 * k ≤ env.elapsed k)
    (hf : env.fetchJson = none) :
    ∀ fuel k, 1 ≤ fuel → k + fuel = 8 → (pollLoop env fuel k).result = [] := by
  intro fuel
  induction fuel with
  | zero => intro k h1 _; omega
  | succ f ih =>
    intro k _ hk
    cases hpj : env.pollJson k with
    | none => simp [pollLoop, hpj]
    | some body =>
      cases hlk : lookup body "status" with
      | none => simp [pollLoop, hpj, hlk]
      | some v =>
        by_cases hv : v = PyVal.str "ready"
        · simp [pollLoop, hpj, hlk, hv, hf]
        · by_cases he : env.elapsed k > 60
          · simp [pollLoop, hpj, hlk, hv, he]
          · have hk6 : k ≤ 6 := by have := h10 k; omega
            have hrec := ih (k + 1) (by omega) (by omega)
            simp [pollLoop, hpj, hlk, hv, he, hrec]

/-! ## Claim theorems -/

/-- C8: `scrape_urls` applied to an empty URL list returns the empty sequence
immediately, issuing no network request (no trigger, poll or fetch call) and
performing no sleep. -/
theorem spec_c8_empty_short_circuit (env : ScrapeEnv) :
    scrape_urls env [] = ⟨[], 0, 0⟩ := rfl

/-- C6: for every non-empty URL list, `scrape_urls` returns the empty
sequence when the trigger status is not 2xx (the code returns `[]` for any
status other than 200), when the trigger body is not JSON, and when the
trigger body lacks the `snapshot_id` job handle; when no progress poll
ever reports status `"ready"` (given that each poll iteration sleeps 10
seconds so the k-th timeout check happens at elapsed time at least `10 * k`),
it returns the empty sequence after at most 7 sleeps, i.e. it does not hang
beyond the 60 second timeout plus one 10 second poll interval; and when the
final snapshot result body is malformed (non-JSON, `fetchJson = none`), the
`except ValueError` around `output_response.json()` likewise yields the
empty sequence. -/
theorem spec_c6_scrape_errors (env : ScrapeEnv) (urls : List String)
    (hne : urls ≠ []) :
    (¬ (200 ≤ env.triggerStatus ∧ env.triggerStatus < 300) →
      (scrape_urls env urls).result = []) ∧
    (env.triggerJson = none → (scrape_urls env urls).result = []) ∧
    (∀ j, env.triggerJson = some j → lookup j "snapshot_id" = none →
      (scrape_urls env urls).result = []) ∧
    ((∀ k, 10 * k ≤ env.elapsed k) → (∀ k, statusReady env k = false) →
      (scrape_urls env urls).result = [] ∧ (scrape_urls env urls).sleeps ≤ 7) ∧
    ((∀ k, 10 * k ≤ env.elapsed k) → env.fetchJson = none →
      (scrape_urls env urls).result = []) := by
  refine ⟨?_, ?_, ?_, ?_, ?_⟩
  · intro h2xx
    have hs : env.triggerStatus ≠ 200 := by omega
    simp [scrape_urls, hne, hs]
  · intro hj
    by_cases hs : env.triggerStatus = 200 <;> simp [scrape_urls, hne, hs, hj]
  · intro j hj hsnap
    by_cases hs : env.triggerStatus = 200 <;> simp [scrape_urls, hne, hs, hj, hsnap]
  · intro h10 hnr
    by_cases hs : env.triggerStatus = 200
    · cases hj : env.triggerJson with
      | none => simp [scrape_urls, hne, hs, hj]
      | some j =>
        cases hsnap : lookup j "snapshot_id" with
        | none => simp [scrape_urls, hne, hs, hj, hsnap]
        | some v =>
          obtain ⟨j2, hj2, hpoll⟩ := pollLoop_no_ready env h10 hnr 8 0 (by omega) (by omega)
          constructor
          · simp [scrape_urls, hne, hs, hj, hsnap, hpoll]
          · simp only [scrape_urls, hne, hs, hj, hsnap, hpoll]
            simp [hne, hpoll]
            omega
    · simp [scrape_urls, hne, hs]
  · intro h10 hf
    by_cases hs : env.triggerStatus = 200
    · cases hj : env.triggerJson with
      | none => simp [scrape_urls, hne, hs, hj]
      | some j =>
        cases hsnap : lookup j "snapshot_id" with
        | none => simp [scrape_urls, hne, hs, hj, hsnap]
        | some v =>
          have hpoll := pollLoop_fetch_none env h10 hf 8 0 (by omega) (by omega)
          simp [scrape_urls, hne, hs, hj, hsnap, hpoll]
    · simp [scrape_urls, hne, hs]

/-- scrapeEnvDown is a concrete environment whose trigger request fails with
HTTP 404. -/
def scrapeEnvDown : ScrapeEnv :=
  ⟨404, none, fun _ => some [("status", PyVal.str "running")], fun k => 10 * k, none⟩

/-- Witness for C6: on a concrete one-element URL list with a 404 trigger
response, `scrape_urls` returns the empty list. -/
theorem spec_c6_witness :
    (scrape_urls scrapeEnvDown ["https://example.com/post"]).result = [] :=
  (spec_c6_scrape_errors scrapeEnvDown ["https://example.com/post"]
    (by decide)).1 (by decide)

/-- liItem builds a search-result record with a `title` and the given
`link`. -/
def liItem (s : String) : RawRecord :=
  [("title", PyVal.str "t"), ("link", PyVal.str s)]

/-- sLimit2 is the default state with `total_results` set to 2, a
configuration the UI allows (its result-count input ranges over 1..5). -/
def sLimit2 : BrandMonitoringState := { initialState with total_results := 2 }

/-- Counterexample for C2: with `total_results = 2` the bucketing loop still
accepts 3 LinkedIn results, because the cap in `scrape_data` is the literal
`5`, not the state's `total_results`. -/
theorem spec_c2_cex :
    sLimit2.total_results = 2 ∧
    (classifyLoop sLimit2
      [liItem "https://linkedin.com/a", liItem "https://linkedin.com/b",
        liItem "https://linkedin.com/c"]).1.linkedin_search_response.length = 3 := by
  constructor
  · rfl
  · decide

/-- C2 (amended): starting from empty buckets, classification places each
item in at most one platform bucket (counted with multiplicity, the four
buckets together never hold more copies of a record than the input did), no
bucket ever exceeds the hard-coded cap of 5 entries (not the state's
`total_results`), and an item whose destination bucket is already full is
dropped, leaving the state unchanged. -/
theorem spec_c2_amended (s : BrandMonitoringState) (rs : List RawRecord)
    (h1 : s.linkedin_search_response = []) (h2 : s.instagram_search_response = [])
    (h3 : s.youtube_search_response = []) (h4 : s.x_search_response = []) :
    (∀ p, (bucket p (classifyLoop s rs).1).length ≤ 5) ∧
    (∀ r0 : RawRecord, countBuckets (classifyLoop s rs).1 r0 ≤ rs.count r0) ∧
    (∀ (t : BrandMonitoringState) (r : RawRecord) (p : Platform),
      destOf r = .ok (some p) → 5 ≤ (bucket p t).length →
      classifyItem t r = (t, none)) := by
  refine ⟨?_, ?_, ?_⟩
  · apply classifyLoop_len
    intro p
    cases p <;> simp [bucket, h1, h2, h3, h4]
  · intro r0
    have hle := classifyLoop_count rs s r0
    have hz : countBuckets s r0 = 0 := by
      simp [countBuckets, h1, h2, h3, h4]
    omega
  · intro t r p hd hfull
    exact classifyItem_full t r p hd hfull

/-- Witness for the amended C2 at a concrete input. -/
theorem spec_c2_amended_witness :
    (bucket Platform.linkedin
      (classifyLoop initialState [liItem "https://www.linkedin.com/posts/a"]).1).length ≤ 5 :=
  ((spec_c2_amended initialState [liItem "https://www.linkedin.com/posts/a"]
    rfl rfl rfl rfl).1) Platform.linkedin

/-- C10: classification handles an item without a `link` key by treating the
URL as the empty string, which matches no platform marker, so the item is
dropped silently without raising and the state is unchanged; and the routing
decision depends only on the lower-cased URL, so two items whose `link`
strings agree up to case are routed to the same destination. -/
theorem spec_c10_classify_total (s : BrandMonitoringState) (r : RawRecord) :
    (lookup r "link" = none → classifyItem s r = (s, none)) ∧
    (∀ (r2 : RawRecord) (u u2 : String),
      lookup r "link" = some (PyVal.str u) → lookup r2 "link" = some (PyVal.str u2) →
      lowerStr u = lowerStr u2 → destOf r = destOf r2) := by
  constructor
  · intro h
    unfold classifyItem dictGet
    rw [h]
    rfl
  · intro r2 u u2 hu hu2 hl
    unfold destOf dictGet
    rw [hu, hu2]
    simp only [Option.getD_some, pyLower]
    rw [hl]

/-- Witness for C10: a concrete record without a `link` key is dropped
without raising. -/
theorem spec_c10_witness :
    classifyItem initialState [("title", PyVal.str "no link here")] =
      (initialState, none) :=
  (spec_c10_classify_total initialState [("title", PyVal.str "no link here")]).1 rfl

/-- Counterexample for C3: field extraction is not total — on a record
without a `url` key, the raising indexing `i["url"]` makes the LinkedIn and
X extraction steps raise `KeyError` instead of degrading to a default. -/
theorem spec_c3_cex :
    linkedinFilter [("headline", PyVal.str "h")] = .error .keyError ∧
    xFilter [] = .error .keyError := ⟨rfl, rfl⟩

/-- C3 (amended): for every platform, field extraction succeeds exactly on
raw records that contain a `url` key (the `url` field is accessed with
raising indexing, so its absence raises `KeyError`), and on success each
normalized field equals the raw record's value for the corresponding
provider key when present and the documented default otherwise. -/
theorem spec_c3_amended (r : RawRecord) :
    (((∃ o, linkedinFilter r = Except.ok o) ↔ (lookup r "url").isSome) ∧
      (∀ u, lookup r "url" = some u →
        ∃ o, linkedinFilter r = Except.ok o ∧
          lookup o "url" = some u ∧
          lookup o "headline" = some (dictGet r "headline" (PyVal.str "No headline")) ∧
          lookup o "post_text" = some (dictGet r "post_text" (PyVal.str "No post text available")) ∧
          lookup o "hashtags" = some (dictGet r "hashtags" (PyVal.vlist [])) ∧
          lookup o "tagged_companies" = some (dictGet r "tagged_companies" (PyVal.vlist [])) ∧
          lookup o "tagged_people" = some (dictGet r "tagged_people" (PyVal.vlist [])) ∧
          lookup o "original_poster" = some (dictGet r "user_id" (PyVal.str "Unknown user")))) ∧
    (((∃ o, instagramFilter r = Except.ok o) ↔ (lookup r "url").isSome) ∧
      (∀ u, lookup r "url" = some u →
        ∃ o, instagramFilter r = Except.ok o ∧
          lookup o "url" = some u ∧
          lookup o "description" = some (dictGet r "description" (PyVal.str "No description available")) ∧
          lookup o "likes" = some (dictGet r "likes" (PyVal.str "0")) ∧
          lookup o "num_comments" = some (dictGet r "num_comments" (PyVal.str "0")) ∧
          lookup o "is_paid_partnership" = some (dictGet r "is_paid_partnership" (PyVal.bool false)) ∧
          lookup o "followers" = some (dictGet r "followers" (PyVal.str "0")) ∧
          lookup o "original_poster" = some (dictGet r "user_posted" (PyVal.str "Unknown user")))) ∧
    (((∃ o, youtubeFilter r = Except.ok o) ↔ (lookup r "url").isSome) ∧
      (∀ u, lookup r "url" = some u →
        ∃ o, youtubeFilter r = Except.ok o ∧
          lookup o "url" = some u ∧
          lookup o "title" = some (dictGet r "title" (PyVal.str "No Title")) ∧
          lookup o "description" = some (dictGet r "description" (PyVal.str "No description available")) ∧
          lookup o "original_poster" = some (dictGet r "youtuber" (PyVal.str "Unknown creator")) ∧
          lookup o "verified" = some (dictGet r "verified" (PyVal.bool false)) ∧
          lookup o "views" = some (dictGet r "views" (PyVal.str "0")) ∧
          lookup o "likes" = some (dictGet r "likes" (PyVal.str "0")) ∧
          lookup o "hashtags" = some (dictGet r "hashtags" (PyVal.vlist [])) ∧
          lookup o "transcript" = some (dictGet r "transcript" (PyVal.str "No transcript available")))) ∧
    (((∃ o, xFilter r = Except.ok o) ↔ (lookup r "url").isSome) ∧
      (∀ u, lookup r "url" = some u →
        ∃ o, xFilter r = Except.ok o ∧
          lookup o "url" = some u ∧
          lookup o "views" = some (dictGet r "views" (PyVal.str "0")) ∧
          lookup o "likes" = some (dictGet r "likes" (PyVal.str "0")) ∧
          lookup o "replies" = some (dictGet r "replies" (PyVal.str "0")) ∧
          lookup o "reposts" = some (dictGet r "reposts" (PyVal.str "0")) ∧
          lookup o "hashtags" = some (dictGet r "hashtags" (PyVal.vlist [])) ∧
          lookup o "quotes" = some (dictGet r "quotes" (PyVal.str "0")) ∧
          lookup o "bookmarks" = some (dictGet r "bookmarks" (PyVal.str "0")) ∧
          lookup o "description" = some (dictGet r "description" (PyVal.str "No description available")) ∧
          lookup o "tagged_users" = some (dictGet r "tagged_users" (PyVal.vlist [])) ∧
          lookup o "original_poster" = some (dictGet r "user_posted" (PyVal.str "Unknown user")))) := by
  refine ⟨⟨?_, ?_⟩, ⟨?_, ?_⟩, ⟨?_, ?_⟩, ⟨?_, ?_⟩⟩
  · cases hu : lookup r "url" with
    | none => simp [linkedinFilter, hu]
    | some u => simp [linkedinFilter, hu]
  · intro u hu
    exact ⟨[("url", u),
      ("headline", dictGet r "headline" (PyVal.str "No headline")),
      ("post_text", dictGet r "post_text" (PyVal.str "No post text available")),
      ("hashtags", dictGet r "hashtags" (PyVal.vlist [])),
      ("tagged_companies", dictGet r "tagged_companies" (PyVal.vlist [])),
      ("tagged_people", dictGet r "tagged_people" (PyVal.vlist [])),
      ("original_poster", dictGet r "user_id" (PyVal.str "Unknown user"))],
      by unfold linkedinFilter; rw [hu], rfl, rfl, rfl, rfl, rfl, rfl, rfl⟩
  · cases hu : lookup r "url" with
    | none => simp [instagramFilter, hu]
    | some u => simp [instagramFilter, hu]
  · intro u hu
    exact ⟨[("url", u),
      ("description", dictGet r "description" (PyVal.str "No description available")),
      ("likes", dictGet r "likes" (PyVal.str "0")),
      ("num_comments", dictGet r "num_comments" (PyVal.str "0")),
      ("is_paid_partnership", dictGet r "is_paid_partnership" (PyVal.bool false)),
      ("followers", dictGet r "followers" (PyVal.str "0")),
      ("original_poster", dictGet r "user_posted" (PyVal.str "Unknown user"))],
      by unfold instagramFilter; rw [hu], rfl, rfl, rfl, rfl, rfl, rfl, rfl⟩
  · cases hu : lookup r "url" with
    | none => simp [youtubeFilter, hu]
    | some u => simp [youtubeFilter, hu]
  · intro u hu
    exact ⟨[("url", u),
      ("title", dictGet r "title" (PyVal.str "No Title")),
      ("description", dictGet r "description" (PyVal.str "No description available")),
      ("original_poster", dictGet r "youtuber" (PyVal.str "Unknown creator")),
      ("verified", dictGet r "verified" (PyVal.bool false)),
      ("views", dictGet r "views" (PyVal.str "0")),
      ("likes", dictGet r "likes" (PyVal.str "0")),
      ("hashtags", dictGet r "hashtags" (PyVal.vlist [])),
      ("transcript", dictGet r "transcript" (PyVal.str "No transcript available"))],
      by unfold youtubeFilter; rw [hu], rfl, rfl, rfl, rfl, rfl, rfl, rfl, rfl, rfl⟩
  · cases hu : lookup r "url" with
    | none => simp [xFilter, hu]
    | some u => simp [xFilter, hu]
  · intro u hu
    exact ⟨[("url", u),
      ("views", dictGet r "views" (PyVal.str "0")),
      ("likes", dictGet r "likes" (PyVal.str "0")),
      ("replies", dictGet r "replies" (PyVal.str "0")),
      ("reposts", dictGet r "reposts" (PyVal.str "0")),
      ("hashtags", dictGet r "hashtags" (PyVal.vlist [])),
      ("quotes", dictGet r "quotes" (PyVal.str "0")),
      ("bookmarks", dictGet r "bookmarks" (PyVal.str "0")),
      ("description", dictGet r "description" (PyVal.str "No description available")),
      ("tagged_users", dictGet r "tagged_users" (PyVal.vlist [])),
      ("original_poster", dictGet r "user_posted" (PyVal.str "Unknown user"))],
      by unfold xFilter; rw [hu], rfl, rfl, rfl, rfl, rfl, rfl, rfl, rfl, rfl, rfl, rfl⟩

/-- Witness for the amended C3: the LinkedIn extraction applied to a concrete
record with a `url` key succeeds with the documented field values. -/
theorem spec_c3_amended_witness :
    ∃ o, linkedinFilter [("url", PyVal.str "u")] = Except.ok o ∧
      lookup o "url" = some (PyVal.str "u") ∧
      lookup o "headline" =
        some (dictGet [("url", PyVal.str "u")] "headline" (PyVal.str "No headline")) ∧
      lookup o "post_text" =
        some (dictGet [("url", PyVal.str "u")] "post_text" (PyVal.str "No post text available")) ∧
      lookup o "hashtags" =
        some (dictGet [("url", PyVal.str "u")] "hashtags" (PyVal.vlist [])) ∧
      lookup o "tagged_companies" =
        some (dictGet [("url", PyVal.str "u")] "tagged_companies" (PyVal.vlist [])) ∧
      lookup o "tagged_people" =
        some (dictGet [("url", PyVal.str "u")] "tagged_people" (PyVal.vlist [])) ∧
      lookup o "original_poster" =
        some (dictGet [("url", PyVal.str "u")] "user_id" (PyVal.str "Unknown user")) :=
  (spec_c3_amended [("url", PyVal.str "u")]).1.2 (PyVal.str "u") rfl

/-- C1: `scrape_data_and_analyse` never fails because of a single platform's
pipeline — every exception escaping a platform task is captured at that
task's boundary by `asyncio.gather(..., return_exceptions=True)`, and the
model therefore always produces a final state.  Whatever one platform's
external behaviour (its scrape call raising, returning empty, or its
summarizer raising or returning an invalid result), the other three
platforms' slices of the returned state are exactly what they would have
been without the failure: replacing one platform's environment leaves the
other three platforms' state fields unchanged. -/
theorem spec_c1_isolation (envm : EnvMap) (s : BrandMonitoringState)
    (li li2 ig ig2 yt yt2 x x2 : PlatEnv) :
    (igSlice (scrape_data_and_analyse envm ⟨li, ig, yt, x⟩ s).st =
        igSlice (scrape_data_and_analyse envm ⟨li2, ig, yt, x⟩ s).st ∧
      ytSlice (scrape_data_and_analyse envm ⟨li, ig, yt, x⟩ s).st =
        ytSlice (scrape_data_and_analyse envm ⟨li2, ig, yt, x⟩ s).st ∧
      xSlice (scrape_data_and_analyse envm ⟨li, ig, yt, x⟩ s).st =
        xSlice (scrape_data_and_analyse envm ⟨li2, ig, yt, x⟩ s).st) ∧
    (liSlice (scrape_data_and_analyse envm ⟨li, ig, yt, x⟩ s).st =
        liSlice (scrape_data_and_analyse envm ⟨li, ig2, yt, x⟩ s).st ∧
      ytSlice (scrape_data_and_analyse envm ⟨li, ig, yt, x⟩ s).st =
        ytSlice (scrape_data_and_analyse envm ⟨li, ig2, yt, x⟩ s).st ∧
      xSlice (scrape_data_and_analyse envm ⟨li, ig, yt, x⟩ s).st =
        xSlice (scrape_data_and_analyse envm ⟨li, ig2, yt, x⟩ s).st) ∧
    (liSlice (scrape_data_and_analyse envm ⟨li, ig, yt, x⟩ s).st =
        liSlice (scrape_data_and_analyse envm ⟨li, ig, yt2, x⟩ s).st ∧
      igSlice (scrape_data_and_analyse envm ⟨li, ig, yt, x⟩ s).st =
        igSlice (scrape_data_and_analyse envm ⟨li, ig, yt2, x⟩ s).st ∧
      xSlice (scrape_data_and_analyse envm ⟨li, ig, yt, x⟩ s).st =
        xSlice (scrape_data_and_analyse envm ⟨li, ig, yt2, x⟩ s).st) ∧
    (liSlice (scrape_data_and_analyse envm ⟨li, ig, yt, x⟩ s).st =
        liSlice (scrape_data_and_analyse envm ⟨li, ig, yt, x2⟩ s).st ∧
      igSlice (scrape_data_and_analyse envm ⟨li, ig, yt, x⟩ s).st =
        igSlice (scrape_data_and_analyse envm ⟨li, ig, yt, x2⟩ s).st ∧
      ytSlice (scrape_data_and_analyse envm ⟨li, ig, yt, x⟩ s).st =
        ytSlice (scrape_data_and_analyse envm ⟨li, ig, yt, x2⟩ s).st) :=
  ⟨⟨rfl, rfl, rfl⟩, ⟨rfl, rfl, rfl⟩, ⟨rfl, rfl, rfl⟩, ⟨rfl, rfl, rfl⟩⟩

/-- C9: each platform's task writes only its own four state fields — apart
from reading its search bucket (which it never writes), it touches only its
own `*_scrape_response`, `*_filtered_scrape_response` and `*_crew_response`;
the other three platforms' slices are unchanged whether the task succeeds or
fails. -/
theorem spec_c9_frame (envm : EnvMap) (e : PlatEnv) (s : BrandMonitoringState) :
    (igSlice (linkedin_analysis envm e s).st = igSlice s ∧
      ytSlice (linkedin_analysis envm e s).st = ytSlice s ∧
      xSlice (linkedin_analysis envm e s).st = xSlice s ∧
      (linkedin_analysis envm e s).st.linkedin_search_response =
        s.linkedin_search_response) ∧
    (liSlice (instagram_analysis envm e s).st = liSlice s ∧
      ytSlice (instagram_analysis envm e s).st = ytSlice s ∧
      xSlice (instagram_analysis envm e s).st = xSlice s ∧
      (instagram_analysis envm e s).st.instagram_search_response =
        s.instagram_search_response) ∧
    (liSlice (youtube_analysis envm e s).st = liSlice s ∧
      igSlice (youtube_analysis envm e s).st = igSlice s ∧
      xSlice (youtube_analysis envm e s).st = xSlice s ∧
      (youtube_analysis envm e s).st.youtube_search_response =
        s.youtube_search_response) ∧
    (liSlice (x_analysis envm e s).st = liSlice s ∧
      igSlice (x_analysis envm e s).st = igSlice s ∧
      ytSlice (x_analysis envm e s).st = ytSlice s ∧
      (x_analysis envm e s).st.x_search_response = s.x_search_response) :=
  ⟨⟨rfl, rfl, rfl, sliceTask_search_eq linkedinFilter envm e (liSlice s)⟩,
    ⟨rfl, rfl, rfl, sliceTask_search_eq instagramFilter envm e (igSlice s)⟩,
    ⟨rfl, rfl, rfl, sliceTask_search_eq youtubeFilter envm e (ytSlice s)⟩,
    ⟨rfl, rfl, rfl, sliceTask_search_eq xFilter envm e (xSlice s)⟩⟩

/-- C4: for every platform, an empty search bucket makes the platform's
pipeline exit before performing any scrape or summarizer call (both call
counters are 0 and no exception escapes), and the platform's report field
stays null in the final state of the whole run. -/
theorem spec_c4_skip (envm : EnvMap) (env : FlowEnv) (s : BrandMonitoringState) :
    (s.linkedin_search_response = [] → s.linkedin_crew_response = none →
      (scrape_data_and_analyse envm env s).st.linkedin_crew_response = none ∧
      (scrape_data_and_analyse envm env s).li = ⟨none, 0, 0⟩) ∧
    (s.instagram_search_response = [] → s.instagram_crew_response = none →
      (scrape_data_and_analyse envm env s).st.instagram_crew_response = none ∧
      (scrape_data_and_analyse envm env s).ig = ⟨none, 0, 0⟩) ∧
    (s.youtube_search_response = [] → s.youtube_crew_response = none →
      (scrape_data_and_analyse envm env s).st.youtube_crew_response = none ∧
      (scrape_data_and_analyse envm env s).yt = ⟨none, 0, 0⟩) ∧
    (s.x_search_response = [] → s.x_crew_response = none →
      (scrape_data_and_analyse envm env s).st.x_crew_response = none ∧
      (scrape_data_and_analyse envm env s).x = ⟨none, 0, 0⟩) := by
  refine ⟨?_, ?_, ?_, ?_⟩
  · intro hs hc
    have h0 := sliceTask_empty linkedinFilter envm env.linkedin (liSlice s) hs
    constructor
    · show (sliceTask linkedinFilter envm env.linkedin (liSlice s)).1.crew = none
      rw [h0]
      exact hc
    · show (sliceTask linkedinFilter envm env.linkedin (liSlice s)).2 = ⟨none, 0, 0⟩
      rw [h0]
  · intro hs hc
    have h0 := sliceTask_empty instagramFilter envm env.instagram (igSlice s) hs
    constructor
    · show (sliceTask instagramFilter envm env.instagram (igSlice s)).1.crew = none
      rw [h0]
      exact hc
    · show (sliceTask instagramFilter envm env.instagram (igSlice s)).2 = ⟨none, 0, 0⟩
      rw [h0]
  · intro hs hc
    have h0 := sliceTask_empty youtubeFilter envm env.youtube (ytSlice s) hs
    constructor
    · show (sliceTask youtubeFilter envm env.youtube (ytSlice s)).1.crew = none
      rw [h0]
      exact hc
    · show (sliceTask youtubeFilter envm env.youtube (ytSlice s)).2 = ⟨none, 0, 0⟩
      rw [h0]
  · intro hs hc
    have h0 := sliceTask_empty xFilter envm env.x (xSlice s) hs
    constructor
    · show (sliceTask xFilter envm env.x (xSlice s)).1.crew = none
      rw [h0]
      exact hc
    · show (sliceTask xFilter envm env.x (xSlice s)).2 = ⟨none, 0, 0⟩
      rw [h0]

/-- idleEnv is a platform environment whose scrape returns nothing and whose
crew returns a falsy result. -/
def idleEnv : PlatEnv := ⟨.returns [], .returns none⟩

/-- idleFlowEnv gives every platform the idle environment. -/
def idleFlowEnv : FlowEnv := ⟨idleEnv, idleEnv, idleEnv, idleEnv⟩

/-- Witness for C4 at the default (all-empty) state. -/
theorem spec_c4_witness :
    (scrape_data_and_analyse [] idleFlowEnv initialState).st.linkedin_crew_response = none ∧
    (scrape_data_and_analyse [] idleFlowEnv initialState).li = ⟨none, 0, 0⟩ :=
  (spec_c4_skip [] idleFlowEnv initialState).1 rfl rfl

/-- C7: for every platform, if the platform's report field was null before
the run, it is non-null afterwards only if the platform's filtered-records
sequence is non-empty — the crew is only invoked, and its result only
assigned, after the pipeline has checked that the filtered list is
non-empty, and the filtered list is never shrunk afterwards. -/
theorem spec_c7_report_invariant (envm : EnvMap) (env : FlowEnv)
    (s : BrandMonitoringState) :
    (s.linkedin_crew_response = none →
      ((scrape_data_and_analyse envm env s).st.linkedin_crew_response).isSome →
      (scrape_data_and_analyse envm env s).st.linkedin_filtered_scrape_response ≠ []) ∧
    (s.instagram_crew_response = none →
      ((scrape_data_and_analyse envm env s).st.instagram_crew_response).isSome →
      (scrape_data_and_analyse envm env s).st.instagram_filtered_scrape_response ≠ []) ∧
    (s.youtube_crew_response = none →
      ((scrape_data_and_analyse envm env s).st.youtube_crew_response).isSome →
      (scrape_data_and_analyse envm env s).st.youtube_filtered_scrape_response ≠ []) ∧
    (s.x_crew_response = none →
      ((scrape_data_and_analyse envm env s).st.x_crew_response).isSome →
      (scrape_data_and_analyse envm env s).st.x_filtered_scrape_response ≠ []) :=
  ⟨fun hc hs => sliceTask_crew_filtered linkedinFilter envm env.linkedin (liSlice s) hc hs,
    fun hc hs => sliceTask_crew_filtered instagramFilter envm env.instagram (igSlice s) hc hs,
    fun hc hs => sliceTask_crew_filtered youtubeFilter envm env.youtube (ytSlice s) hc hs,
    fun hc hs => sliceTask_crew_filtered xFilter envm env.x (xSlice s) hc hs⟩

/-- sWithLi is the default state with one LinkedIn search hit. -/
def sWithLi : BrandMonitoringState :=
  { initialState with
      linkedin_search_response := [[("link", PyVal.str "https://linkedin.com/p")]] }

/-- liveEnv is a platform environment whose scrape succeeds with one record
and whose crew returns a (truthy) report. -/
def liveEnv : PlatEnv :=
  ⟨.returns [[("url", PyVal.str "https://linkedin.com/p")]], .returns (some ⟨[]⟩)⟩

/-- liveFlowEnv gives LinkedIn the live environment and the other platforms
the idle one. -/
def liveFlowEnv : FlowEnv := ⟨liveEnv, idleEnv, idleEnv, idleEnv⟩

/-- Witness for C7 on a run that actually produces a LinkedIn report. -/
theorem spec_c7_witness :
    (scrape_data_and_analyse [] liveFlowEnv sWithLi).st.linkedin_filtered_scrape_response ≠ [] :=
  (spec_c7_report_invariant [] liveFlowEnv sWithLi).1 rfl (by decide)

/-- groqEnvm is the process environment `scrape_data` produces for the Groq
provider when no `GROQ_API_KEY` is set. -/
def groqEnvm : EnvMap := [("GROQ_MODEL", "llama3-70b-8192"), ("LLM_PROVIDER", "groq")]

/-- sGroq selects the Groq provider in an otherwise live LinkedIn state. -/
def sGroq : BrandMonitoringState := { sWithLi with llm_provider := "groq" }

/-- Counterexample for C5: with the Groq provider selected and no
`GROQ_API_KEY`, the run does not fail before the pipelines start.  The
LinkedIn pipeline runs its scrape and filtering stages (the scrape call count
is 1 and scraped data is stored), and only then does `get_llm` raise
`ValueError` inside the crew stage, where the platform's `try`/`except`
catches it: the run completes with no escaped exception and the LinkedIn
report stays null even though the summarizer itself would have returned a
report. -/
theorem spec_c5_cex :
    get_llm groqEnvm (envLookup groqEnvm "LLM_PROVIDER")
        (envLookup groqEnvm "LLM_MODEL") = .error .valueError ∧
    (scrape_data_and_analyse groqEnvm liveFlowEnv sGroq).st.linkedin_scrape_response =
      [[("url", PyVal.str "https://linkedin.com/p")]] ∧
    (scrape_data_and_analyse groqEnvm liveFlowEnv sGroq).st.linkedin_filtered_scrape_response ≠ [] ∧
    (scrape_data_and_analyse groqEnvm liveFlowEnv sGroq).st.linkedin_crew_response = none ∧
    (scrape_data_and_analyse groqEnvm liveFlowEnv sGroq).li = ⟨none, 1, 1⟩ := by
  refine ⟨rfl, rfl, by decide, rfl, rfl⟩

lemma lowerStr_groq : lowerStr "groq" = "groq" := by decide

/-- C5 (amended): a missing or empty `GROQ_API_KEY` with the Groq provider
selected is not checked before the run; it surfaces as a `ValueError` raised
by `get_llm` during crew construction, inside each platform's analysis stage,
where the per-platform `try`/`except` catches it, so no platform's report is
ever set and the run completes instead of failing. -/
theorem spec_c5_amended (envm : EnvMap) (env : FlowEnv) (s : BrandMonitoringState)
    (hp : envLookup envm "LLM_PROVIDER" = some "groq")
    (hk : envLookup envm "GROQ_API_KEY" = none ∨ envLookup envm "GROQ_API_KEY" = some "") :
    get_llm envm (envLookup envm "LLM_PROVIDER")
        (envLookup envm "LLM_MODEL") = .error .valueError ∧
    (scrape_data_and_analyse envm env s).st.linkedin_crew_response = s.linkedin_crew_response ∧
    (scrape_data_and_analyse envm env s).st.instagram_crew_response = s.instagram_crew_response ∧
    (scrape_data_and_analyse envm env s).st.youtube_crew_response = s.youtube_crew_response ∧
    (scrape_data_and_analyse envm env s).st.x_crew_response = s.x_crew_response := by
  have hg : get_llm envm (envLookup envm "LLM_PROVIDER")
      (envLookup envm "LLM_MODEL") = .error .valueError := by
    rcases hk with hk | hk <;> simp [get_llm, pyOr, hp, hk, lowerStr_groq]
  have hcs : ∀ c, crewStage envm c = .raises .valueError := by
    intro c
    simp [crewStage, hg]
  exact ⟨hg,
    sliceTask_crew_unset linkedinFilter envm env.linkedin (liSlice s) .valueError (hcs _),
    sliceTask_crew_unset instagramFilter envm env.instagram (igSlice s) .valueError (hcs _),
    sliceTask_crew_unset youtubeFilter envm env.youtube (ytSlice s) .valueError (hcs _),
    sliceTask_crew_unset xFilter envm env.x (xSlice s) .valueError (hcs _)⟩

/-- Witness for the amended C5 at the concrete Groq environment. -/
theorem spec_c5_amended_witness :
    get_llm groqEnvm (envLookup groqEnvm "LLM_PROVIDER")
        (envLookup groqEnvm "LLM_MODEL") = .error .valueError :=
  (spec_c5_amended groqEnvm idleFlowEnv initialState rfl (Or.inl rfl)).1

end BrandMonitoring
